import Mathlib

/-!
Verification of the page-hunter pagination library core.

Shallow embedding of `src/page-hunter/src/page.rs`, `errors.rs`, `book.rs`
and `pagination/records.rs`: machine integers (`usize`) become `Nat`,
`Vec<E>` becomes `List E`, `Result<T, PaginationError>` becomes
`Except PaginationError T`, and the serde wire representation of a `Page`
becomes the raw field record `PageModel`.
-/

set_option maxHeartbeats 1000000

namespace PageHunter

/-- Rust `usize::div_ceil`: `a / b` rounded up.  For `b > 0` this is the
ceiling of the rational `a / b`; the source only ever calls it with a
non-zero divisor. -/
def divCeil (a b : Nat) : Nat := (a + b - 1) / b

/-- `ErrorKind` from `errors.rs`, restricted to the variant the in-memory
core can produce (`SQLx` exists only under the `sqlx` feature and is never
raised by the code under verification). -/
inductive ErrorKind where
  | InvalidValue : String → ErrorKind
deriving DecidableEq

/-- `PaginationError` from `errors.rs`. -/
structure PaginationError where
  kind : ErrorKind
deriving DecidableEq

/-- `PaginationResult<T>` from `results.rs`. -/
abbrev PaginationResult (α : Type) : Type := Except PaginationError α

/-- `PaginationError::from(ErrorKind::InvalidValue(msg))`. -/
def invalidValue (msg : String) : PaginationError := ⟨.InvalidValue msg⟩

/-- Rust `{:?}` rendering of an `Option<usize>` value. -/
def optDebug : Option Nat → String
  | none => "None"
  | some n => "Some(" ++ toString n ++ ")"

/-- The `Page<E>` struct from `page.rs`. -/
structure Page (E : Type) where
  items : List E
  page : Nat
  size : Nat
  total : Nat
  pages : Nat
  previous_page : Option Nat
  next_page : Option Nat
deriving DecidableEq

/-- Rule-1 failure message from `verify_fields`. -/
def msgRule1 (expected found : Nat) : String :=
  "Total pages error: expected '" ++ toString expected ++ "', found '" ++
    toString found ++ "'"

/-- Rule-2 failure message from `verify_fields`. -/
def msgRule2 (page pages : Nat) : String :=
  "Page index '" ++ toString page ++ "' exceeds total pages '" ++
    toString pages ++ "'"

/-- Rule-3 failure message from `verify_fields`. -/
def msgRule3 (len size page : Nat) : String :=
  "Items length '" ++ toString len ++ "' is not equal to page size '" ++
    toString size ++ "' for an intermediate page '" ++ toString page ++ "'"

/-- Rule-4 failure message from `verify_fields`. -/
def msgRule4 (expected found : Nat) : String :=
  "Total elements error: expected '" ++ toString expected ++ "', found '" ++
    toString found ++ "'"

/-- Rule-5 failure message from `verify_fields`. -/
def msgRule5 (expected found : Option Nat) : String :=
  "Previous page index error: expected '" ++ optDebug expected ++
    "', found '" ++ optDebug found ++ "'"

/-- Rule-6 failure message from `verify_fields`. -/
def msgRule6 (expected found : Option Nat) : String :=
  "Next page index error: expected '" ++ optDebug expected ++
    "', found '" ++ optDebug found ++ "'"

/-- The `expected_pages` value `verify_fields` computes for a page. -/
def expectedPagesOf {E : Type} (p : Page E) : Nat :=
  if p.size = 0 then 1 else max (divCeil p.total p.size) 1

/-- The `expected_previous_page` value `verify_fields` computes for a page. -/
def expectedPrevOf {E : Type} (p : Page E) : Option Nat :=
  if p.page = 0 then none else some (p.page - 1)

/-- The `expected_next_page` value `verify_fields` computes for a page. -/
def expectedNextOf {E : Type} (p : Page E) : Option Nat :=
  if p.page = p.pages - 1 then none else some (p.page + 1)

/-- `Page::verify_fields` from `page.rs`, lines 87-164: the six checks in
their source order, each producing the source's exact message on failure. -/
def Page.verify_fields {E : Type} (p : Page E) : PaginationResult Unit :=
  let items_length := p.items.length
  let expected_pages := if p.size = 0 then 1 else max (divCeil p.total p.size) 1
  if expected_pages ≠ p.pages then
    .error (invalidValue (msgRule1 expected_pages p.pages))
  else if p.page > p.pages - 1 then
    .error (invalidValue (msgRule2 p.page p.pages))
  else if p.page < p.pages - 1 ∧ items_length ≠ p.size then
    .error (invalidValue (msgRule3 items_length p.size p.page))
  else if p.page = p.pages - 1 ∧ p.total ≠ (p.pages - 1) * p.size + items_length then
    .error (invalidValue (msgRule4 ((p.pages - 1) * p.size + items_length) p.total))
  else
    let expected_previous_page : Option Nat :=
      if p.page = 0 then none else some (p.page - 1)
    if expected_previous_page ≠ p.previous_page then
      .error (invalidValue (msgRule5 expected_previous_page p.previous_page))
    else
      let expected_next_page : Option Nat :=
        if p.page = p.pages - 1 then none else some (p.page + 1)
      if expected_next_page ≠ p.next_page then
        .error (invalidValue (msgRule6 expected_next_page p.next_page))
      else .ok ()

/-- The candidate `Page` value assembled inside `Page::new` before
`verify_fields` runs (`page.rs` lines 202-221). -/
def newCandidate {E : Type} (items : List E) (page size total : Nat) : Page E :=
  let pages : Nat := if size = 0 then 1 else max (divCeil total size) 1
  ⟨items, page, size, total, pages,
    if page = 0 then none else some (page - 1),
    if page = pages - 1 then none else some (page + 1)⟩

/-- `Page::new` from `page.rs`, lines 198-225. -/
def Page.new {E : Type} (items : List E) (page size total : Nat) :
    PaginationResult (Page E) :=
  let p : Page E := newCandidate items page size total
  match p.verify_fields with
  | .error e => .error e
  | .ok _ => .ok p

/-- The `Book<E>` struct from `book.rs`. -/
structure Book (E : Type) where
  sheets : List (Page E)
deriving DecidableEq

/-- `Book::new` from `book.rs`: wraps the sheets with no checking. -/
def Book.new {E : Type} (sheets : List (Page E)) : Book E := ⟨sheets⟩

/-- `paginate_records` from `pagination/records.rs`, lines 28-43:
`skip(size * page).take(size)`, count the collection, delegate to
`Page::new`. -/
def paginate_records {E : Type} (records : List E) (page size : Nat) :
    PaginationResult (Page E) :=
  let selected_records := (records.drop (size * page)).take size
  let total := records.length
  Page.new selected_records page size total

/-- Rust's `collect::<Result<Vec<_>, _>>()`: sequence a list of results,
stopping at the first error. -/
def collectResults {α : Type} : List (PaginationResult α) → PaginationResult (List α)
  | [] => .ok []
  | x :: xs =>
    match x with
    | .error e => .error e
    | .ok a =>
      match collectResults xs with
      | .error e => .error e
      | .ok rest => .ok (a :: rest)

/-- `bind_records` from `pagination/records.rs`, lines 68-97: count the
collection, `pages := 0` when `size == 0` else `div_ceil(total,size).max(1)`,
build one `Page::new` per index and collect the first failure. -/
def bind_records {E : Type} (records : List E) (size : Nat) :
    PaginationResult (Book E) :=
  let total := records.length
  let pages : Nat := if size = 0 then 0 else max (divCeil total size) 1
  match collectResults ((List.range pages).map (fun page =>
      Page.new ((records.drop (size * page)).take size) page size total)) with
  | .error e => .error e
  | .ok sheets => .ok (Book.new sheets)

/-- The raw external (serde wire) representation of a `Page`: the
`PageModel` helper struct used by both `Serialize` and `Deserialize` in
`page.rs`. -/
structure PageModel (E : Type) where
  items : List E
  page : Nat
  size : Nat
  total : Nat
  pages : Nat
  previous_page : Option Nat
  next_page : Option Nat
deriving DecidableEq

/-- `Page::serialize` (`page.rs` lines 301-335): emit every stored field
unchanged into the wire representation. -/
def Page.serialize {E : Type} (p : Page E) : PageModel E :=
  ⟨p.items, p.page, p.size, p.total, p.pages, p.previous_page, p.next_page⟩

/-- Reassemble a `Page` from decoded wire fields, exactly as supplied. -/
def PageModel.toPage {E : Type} (m : PageModel E) : Page E :=
  ⟨m.items, m.page, m.size, m.total, m.pages, m.previous_page, m.next_page⟩

/-- `Page::deserialize` (`page.rs` lines 339-374): decode the raw fields,
run `verify_fields` on them as given, reject on violation. -/
def Page.deserialize {E : Type} (m : PageModel E) : PaginationResult (Page E) :=
  let p := m.toPage
  match p.verify_fields with
  | .error e => .error e
  | .ok _ => .ok p

/-- A wire payload with only its `next_page` field replaced. -/
def withNextPage {E : Type} (m : PageModel E) (np : Option Nat) : PageModel E :=
  ⟨m.items, m.page, m.size, m.total, m.pages, m.previous_page, np⟩

/-- Spec rule 1: `pages` is 1 when `size` is 0, else `max(ceil(total/size), 1)`. -/
def rule1 {E : Type} (p : Page E) : Prop :=
  p.pages = (if p.size = 0 then 1 else max (divCeil p.total p.size) 1)

/-- Spec rule 2: `page <= pages - 1`. -/
def rule2 {E : Type} (p : Page E) : Prop := p.page ≤ p.pages - 1

/-- Spec rule 3: a non-last page holds exactly `size` items. -/
def rule3 {E : Type} (p : Page E) : Prop :=
  p.page < p.pages - 1 → p.items.length = p.size

/-- Spec rule 4: on the last page, `total = (pages - 1) * size + items.length`. -/
def rule4 {E : Type} (p : Page E) : Prop :=
  p.page = p.pages - 1 → p.total = (p.pages - 1) * p.size + p.items.length

/-- Spec rule 5: `previous_page` is `some (page - 1)` iff `page > 0`, else `none`. -/
def rule5 {E : Type} (p : Page E) : Prop :=
  p.previous_page = (if p.page = 0 then none else some (p.page - 1))

/-- Spec rule 6: `next_page` is `some (page + 1)` iff `page < pages - 1`,
else `none`. -/
def rule6 {E : Type} (p : Page E) : Prop :=
  p.next_page = (if p.page < p.pages - 1 then some (p.page + 1) else none)

/-- All six Page invariants from the data model (spec section 3). -/
def pageInvariants {E : Type} (p : Page E) : Prop :=
  rule1 p ∧ rule2 p ∧ rule3 p ∧ rule4 p ∧ rule5 p ∧ rule6 p

instance {E : Type} (p : Page E) : Decidable (rule1 p) := by
  unfold rule1; infer_instance

instance {E : Type} (p : Page E) : Decidable (rule2 p) := by
  unfold rule2; infer_instance

instance {E : Type} (p : Page E) : Decidable (rule3 p) := by
  unfold rule3; infer_instance

instance {E : Type} (p : Page E) : Decidable (rule4 p) := by
  unfold rule4; infer_instance

instance {E : Type} (p : Page E) : Decidable (rule5 p) := by
  unfold rule5; infer_instance

instance {E : Type} (p : Page E) : Decidable (rule6 p) := by
  unfold rule6; infer_instance

instance {E : Type} (p : Page E) : Decidable (pageInvariants p) := by
  unfold pageInvariants; infer_instance

/-- Rule `i` of the data model, for `i` in `1..6` (vacuous otherwise). -/
def ruleN {E : Type} (i : Nat) (p : Page E) : Prop :=
  match i with
  | 1 => rule1 p
  | 2 => rule2 p
  | 3 => rule3 p
  | 4 => rule4 p
  | 5 => rule5 p
  | 6 => rule6 p
  | _ => True

instance {E : Type} (i : Nat) (p : Page E) : Decidable (ruleN i p) :=
  match i with
  | 0 => .isTrue trivial
  | 1 => inferInstanceAs (Decidable (rule1 p))
  | 2 => inferInstanceAs (Decidable (rule2 p))
  | 3 => inferInstanceAs (Decidable (rule3 p))
  | 4 => inferInstanceAs (Decidable (rule4 p))
  | 5 => inferInstanceAs (Decidable (rule5 p))
  | 6 => inferInstanceAs (Decidable (rule6 p))
  | _ + 7 => .isTrue trivial

/-- The message `verify_fields` emits when rule `i` is the first to fail. -/
def ruleMsg {E : Type} (i : Nat) (p : Page E) : String :=
  match i with
  | 1 => msgRule1 (expectedPagesOf p) p.pages
  | 2 => msgRule2 p.page p.pages
  | 3 => msgRule3 p.items.length p.size p.page
  | 4 => msgRule4 ((p.pages - 1) * p.size + p.items.length) p.total
  | 5 => msgRule5 (expectedPrevOf p) p.previous_page
  | 6 => msgRule6 (expectedNextOf p) p.next_page
  | _ => ""

/-- The rendering of the expected value reported in rule `i`'s message:
the recomputed pages for rule 1, the stored `pages` bound the index must
stay under for rule 2, the page `size` for rule 3, the recomputed total for
rule 4, and the recomputed neighbour indices for rules 5 and 6. -/
def ruleExpected {E : Type} (i : Nat) (p : Page E) : String :=
  match i with
  | 1 => toString (expectedPagesOf p)
  | 2 => toString p.pages
  | 3 => toString p.size
  | 4 => toString ((p.pages - 1) * p.size + p.items.length)
  | 5 => optDebug (expectedPrevOf p)
  | 6 => optDebug (expectedNextOf p)
  | _ => ""

/-- The rendering of the found (stored) value reported in rule `i`'s message. -/
def ruleFound {E : Type} (i : Nat) (p : Page E) : String :=
  match i with
  | 1 => toString p.pages
  | 2 => toString p.page
  | 3 => toString p.items.length
  | 4 => toString p.total
  | 5 => optDebug p.previous_page
  | 6 => optDebug p.next_page
  | _ => ""

/-- `sub` occurs somewhere inside `s`. -/
def strContains (s sub : String) : Prop := ∃ a b : String, s = a ++ sub ++ b

/-- The page that `bind_records records size` builds at index `i`. -/
def mkSheet {E : Type} (records : List E) (size i : Nat) : Page E :=
  let total := records.length
  let pages := max (divCeil total size) 1
  ⟨(records.drop (size * i)).take size, i, size, total, pages,
    if i = 0 then none else some (i - 1),
    if i = pages - 1 then none else some (i + 1)⟩

/-- Checked (`Option`-valued) natural subtraction: `none` on underflow. -/
def csub (a b : Nat) : Option Nat := if b ≤ a then some (a - b) else none

/-- `Page::verify_fields` with every `usize` subtraction routed through
checked subtraction, mirroring the source line by line; `none` would mean
some subtraction in the source underflows. -/
def checkedVerifyFields {E : Type} (p : Page E) : Option (PaginationResult Unit) := do
  let items_length := p.items.length
  let expected_pages := if p.size = 0 then 1 else max (divCeil p.total p.size) 1
  if expected_pages ≠ p.pages then
    return .error (invalidValue (msgRule1 expected_pages p.pages))
  let pm1a ← csub p.pages 1
  if p.page > pm1a then
    return .error (invalidValue (msgRule2 p.page p.pages))
  let pm1b ← csub p.pages 1
  if p.page < pm1b ∧ items_length ≠ p.size then
    return .error (invalidValue (msgRule3 items_length p.size p.page))
  let pm1c ← csub p.pages 1
  if p.page = pm1c ∧ p.total ≠ pm1c * p.size + items_length then
    return .error (invalidValue (msgRule4 (pm1c * p.size + items_length) p.total))
  let expected_previous_page : Option Nat ←
    if p.page = 0 then pure none else do
      let v ← csub p.page 1
      pure (some v)
  if expected_previous_page ≠ p.previous_page then
    return .error (invalidValue (msgRule5 expected_previous_page p.previous_page))
  let pm1d ← csub p.pages 1
  let expected_next_page : Option Nat :=
    if p.page = pm1d then none else some (p.page + 1)
  if expected_next_page ≠ p.next_page then
    return .error (invalidValue (msgRule6 expected_next_page p.next_page))
  return .ok ()

/-- `Page::new` with every `usize` subtraction routed through checked
subtraction, mirroring the source line by line. -/
def checkedNew {E : Type} (items : List E) (page size total : Nat) :
    Option (PaginationResult (Page E)) := do
  let pages : Nat := if size = 0 then 1 else max (divCeil total size) 1
  let previous_page : Option Nat ←
    if page = 0 then pure none else do
      let v ← csub page 1
      pure (some v)
  let pm1 ← csub pages 1
  let next_page : Option Nat := if page = pm1 then none else some (page + 1)
  let p : Page E := ⟨items, page, size, total, pages, previous_page, next_page⟩
  let r ← checkedVerifyFields p
  match r with
  | .error e => return .error e
  | .ok _ => return .ok p

/-! ### Supporting lemmas -/

theorem le_mul_divCeil {a b : Nat} (hb : 0 < b) : a ≤ b * divCeil a b := by
  unfold divCeil
  have hdm := Nat.div_add_mod (a + b - 1) b
  have hmod := Nat.mod_lt (a + b - 1) hb
  omega

theorem mul_pred_divCeil_lt {a b : Nat} (hb : 0 < b) (ha : 0 < a) :
    b * (divCeil a b - 1) < a := by
  unfold divCeil
  rcases Nat.eq_zero_or_pos ((a + b - 1) / b) with h0 | h1
  · simpa [h0] using ha
  · have hdm := Nat.div_add_mod (a + b - 1) b
    have hmod := Nat.mod_lt (a + b - 1) hb
    have hmul : b * ((a + b - 1) / b) = b * ((a + b - 1) / b - 1) + b := by
      conv_lhs => rw [← Nat.succ_pred_eq_of_pos h1]
      rw [Nat.mul_succ, Nat.pred_eq_sub_one]
    omega

theorem one_le_divCeil {a b : Nat} (hb : 0 < b) (ha : 0 < a) : 1 ≤ divCeil a b := by
  unfold divCeil
  rw [Nat.one_le_div_iff hb]
  omega

theorem divCeil_zero_left {b : Nat} (hb : 0 < b) : divCeil 0 b = 0 := by
  unfold divCeil
  exact Nat.div_eq_of_lt (by omega)

theorem strContains_mid (a x b : String) : strContains (a ++ x ++ b) x := ⟨a, b, rfl⟩

theorem strContains_of_shape {s a x b : String} (h : s = a ++ x ++ b) :
    strContains s x := ⟨a, b, h⟩

/-- Under rule 2, the code's `expected_next_page` test (`page == pages - 1`)
agrees with the spec's phrasing (`page < pages - 1`). -/
theorem next_ite_eq {E : Type} (p : Page E) (h2 : rule2 p) :
    (if p.page = p.pages - 1 then (none : Option Nat) else some (p.page + 1)) =
      (if p.page < p.pages - 1 then some (p.page + 1) else none) := by
  unfold rule2 at h2
  rcases Nat.lt_or_ge p.page (p.pages - 1) with hlt | hge
  · rw [if_neg (by omega), if_pos hlt]
  · have heq : p.page = p.pages - 1 := Nat.le_antisymm h2 hge
    rw [if_pos heq, if_neg (by omega)]

/-- A page satisfying the six invariants passes `verify_fields`. -/
theorem verify_fields_of_invariants {E : Type} (p : Page E)
    (h : pageInvariants p) : p.verify_fields = .ok () := by
  obtain ⟨r1, r2, r3, r4, r5, r6⟩ := h
  unfold rule1 at r1
  unfold rule2 at r2
  unfold rule3 at r3
  unfold rule4 at r4
  unfold rule5 at r5
  unfold rule6 at r6
  unfold Page.verify_fields
  dsimp only
  rw [if_neg (fun hne => hne r1.symm),
    if_neg (Nat.not_lt.mpr r2),
    if_neg (fun hc => hc.2 (r3 hc.1)),
    if_neg (fun hc => hc.2 (r4 hc.1)),
    if_neg (fun hne => hne r5.symm),
    if_neg (fun hne => hne ((next_ite_eq p r2).trans r6.symm))]

/-- A page passing `verify_fields` satisfies the six invariants. -/
theorem invariants_of_verify_fields {E : Type} (p : Page E)
    (h : p.verify_fields = .ok ()) : pageInvariants p := by
  unfold Page.verify_fields at h
  dsimp only at h
  by_cases h1 : (if p.size = 0 then 1 else max (divCeil p.total p.size) 1) ≠ p.pages
  · rw [if_pos h1] at h
    exact absurd h (by simp)
  rw [if_neg h1] at h
  by_cases h2 : p.page > p.pages - 1
  · rw [if_pos h2] at h
    exact absurd h (by simp)
  rw [if_neg h2] at h
  by_cases h3 : p.page < p.pages - 1 ∧ p.items.length ≠ p.size
  · rw [if_pos h3] at h
    exact absurd h (by simp)
  rw [if_neg h3] at h
  by_cases h4 : p.page = p.pages - 1 ∧ p.total ≠ (p.pages - 1) * p.size + p.items.length
  · rw [if_pos h4] at h
    exact absurd h (by simp)
  rw [if_neg h4] at h
  by_cases h5 : (if p.page = 0 then (none : Option Nat) else some (p.page - 1)) ≠ p.previous_page
  · rw [if_pos h5] at h
    exact absurd h (by simp)
  rw [if_neg h5] at h
  by_cases h6 : (if p.page = p.pages - 1 then (none : Option Nat) else some (p.page + 1)) ≠ p.next_page
  · rw [if_pos h6] at h
    exact absurd h (by simp)
  push_neg at h1 h2 h3 h4 h5 h6
  exact ⟨h1.symm, h2, h3, h4, h5.symm, h6.symm.trans (next_ite_eq p h2)⟩

/-- The shared verification routine succeeds exactly on the six data-model
invariants. -/
theorem verify_fields_eq_ok_iff {E : Type} (p : Page E) :
    p.verify_fields = .ok () ↔ pageInvariants p :=
  ⟨invariants_of_verify_fields p, verify_fields_of_invariants p⟩

/-- When rule 1 fails, `verify_fields` reports it. -/
theorem verify_fields_err1 {E : Type} (p : Page E) (h : ¬ rule1 p) :
    p.verify_fields = .error (invalidValue (msgRule1 (expectedPagesOf p) p.pages)) := by
  unfold rule1 at h
  unfold Page.verify_fields
  dsimp only
  rw [if_pos (fun heq => h heq.symm)]
  rfl

/-- When rule 1 holds and rule 2 fails, `verify_fields` reports rule 2. -/
theorem verify_fields_err2 {E : Type} (p : Page E) (h1 : rule1 p) (h2 : ¬ rule2 p) :
    p.verify_fields = .error (invalidValue (msgRule2 p.page p.pages)) := by
  unfold rule1 at h1
  unfold rule2 at h2
  unfold Page.verify_fields
  dsimp only
  rw [if_neg (fun hne => hne h1.symm), if_pos (Nat.not_le.mp h2)]

/-- When rules 1-2 hold and rule 3 fails, `verify_fields` reports rule 3. -/
theorem verify_fields_err3 {E : Type} (p : Page E) (h1 : rule1 p) (h2 : rule2 p)
    (h3 : ¬ rule3 p) :
    p.verify_fields = .error (invalidValue (msgRule3 p.items.length p.size p.page)) := by
  unfold rule1 at h1
  unfold rule2 at h2
  unfold rule3 at h3
  push_neg at h3
  unfold Page.verify_fields
  dsimp only
  rw [if_neg (fun hne => hne h1.symm), if_neg (Nat.not_lt.mpr h2), if_pos h3]

/-- When rules 1-3 hold and rule 4 fails, `verify_fields` reports rule 4. -/
theorem verify_fields_err4 {E : Type} (p : Page E) (h1 : rule1 p) (h2 : rule2 p)
    (_h3 : rule3 p) (h4 : ¬ rule4 p) :
    p.verify_fields =
      .error (invalidValue (msgRule4 ((p.pages - 1) * p.size + p.items.length) p.total)) := by
  unfold rule1 at h1
  unfold rule2 at h2
  unfold rule4 at h4
  push_neg at h4
  unfold Page.verify_fields
  dsimp only
  rw [if_neg (fun hne => hne h1.symm), if_neg (Nat.not_lt.mpr h2),
    if_neg (fun hc => absurd h4.1 (Nat.ne_of_lt hc.1)), if_pos h4]

/-- When rules 1-4 hold and rule 5 fails, `verify_fields` reports rule 5. -/
theorem verify_fields_err5 {E : Type} (p : Page E) (h1 : rule1 p) (h2 : rule2 p)
    (h3 : rule3 p) (h4 : rule4 p) (h5 : ¬ rule5 p) :
    p.verify_fields =
      .error (invalidValue (msgRule5 (expectedPrevOf p) p.previous_page)) := by
  unfold rule1 at h1
  unfold rule2 at h2
  unfold rule3 at h3
  unfold rule4 at h4
  unfold rule5 at h5
  unfold Page.verify_fields
  dsimp only
  rw [if_neg (fun hne => hne h1.symm), if_neg (Nat.not_lt.mpr h2),
    if_neg (fun hc => hc.2 (h3 hc.1)), if_neg (fun hc => hc.2 (h4 hc.1)),
    if_pos (fun heq => h5 heq.symm)]
  rfl

/-- When rules 1-5 hold and rule 6 fails, `verify_fields` reports rule 6. -/
theorem verify_fields_err6 {E : Type} (p : Page E) (h1 : rule1 p) (h2 : rule2 p)
    (h3 : rule3 p) (h4 : rule4 p) (h5 : rule5 p) (h6 : ¬ rule6 p) :
    p.verify_fields =
      .error (invalidValue (msgRule6 (expectedNextOf p) p.next_page)) := by
  have hco := next_ite_eq p h2
  unfold rule1 at h1
  unfold rule2 at h2
  unfold rule3 at h3
  unfold rule4 at h4
  unfold rule5 at h5
  unfold rule6 at h6
  unfold Page.verify_fields
  dsimp only
  rw [if_neg (fun hne => hne h1.symm), if_neg (Nat.not_lt.mpr h2),
    if_neg (fun hc => hc.2 (h3 hc.1)), if_neg (fun hc => hc.2 (h4 hc.1)),
    if_neg (fun hne => hne h5.symm),
    if_pos (fun heq => h6 (heq.symm.trans hco))]
  rfl

/-- `Page::new` succeeds exactly when its assembled candidate passes
`verify_fields`, and then returns that candidate. -/
theorem page_new_ok_iff {E : Type} (items : List E) (page size total : Nat)
    (p : Page E) :
    Page.new items page size total = .ok p ↔
      (newCandidate items page size total).verify_fields = .ok () ∧
        p = newCandidate items page size total := by
  unfold Page.new
  dsimp only
  rcases hv : (newCandidate items page size total).verify_fields with e | u
  · simp
  · cases u
    simp [eq_comm]

/-- `Page::new` fails exactly when its assembled candidate fails
`verify_fields`, with the same error. -/
theorem page_new_err_iff {E : Type} (items : List E) (page size total : Nat)
    (e : PaginationError) :
    Page.new items page size total = .error e ↔
      (newCandidate items page size total).verify_fields = .error e := by
  unfold Page.new
  dsimp only
  rcases hv : (newCandidate items page size total).verify_fields with e' | u
  · simp
  · cases u
    simp

/-- `Page::deserialize` succeeds exactly when the supplied raw fields pass
`verify_fields`, and then returns them unchanged. -/
theorem deserialize_ok_iff {E : Type} (m : PageModel E) (p : Page E) :
    Page.deserialize m = .ok p ↔
      m.toPage.verify_fields = .ok () ∧ p = m.toPage := by
  unfold Page.deserialize
  dsimp only
  rcases hv : m.toPage.verify_fields with e | u
  · simp
  · cases u
    simp [eq_comm]

/-- `Page::deserialize` fails exactly when the supplied raw fields fail
`verify_fields`, with the same error. -/
theorem deserialize_err_iff {E : Type} (m : PageModel E) (e : PaginationError) :
    Page.deserialize m = .error e ↔ m.toPage.verify_fields = .error e := by
  unfold Page.deserialize
  dsimp only
  rcases hv : m.toPage.verify_fields with e' | u
  · simp
  · cases u
    simp

theorem msgRule1_contains (e f : Nat) :
    strContains (msgRule1 e f) (toString e) ∧ strContains (msgRule1 e f) (toString f) :=
  ⟨strContains_of_shape (a := "Total pages error: expected '")
      (b := "', found '" ++ toString f ++ "'")
      (by simp [msgRule1, String.append_assoc]),
    strContains_of_shape (a := "Total pages error: expected '" ++ toString e ++ "', found '")
      (b := "'")
      (by simp [msgRule1, String.append_assoc])⟩

theorem msgRule2_contains (page pages : Nat) :
    strContains (msgRule2 page pages) (toString pages) ∧
      strContains (msgRule2 page pages) (toString page) :=
  ⟨strContains_of_shape (a := "Page index '" ++ toString page ++ "' exceeds total pages '")
      (b := "'")
      (by simp [msgRule2, String.append_assoc]),
    strContains_of_shape (a := "Page index '")
      (b := "' exceeds total pages '" ++ toString pages ++ "'")
      (by simp [msgRule2, String.append_assoc])⟩

theorem msgRule3_contains (len size page : Nat) :
    strContains (msgRule3 len size page) (toString size) ∧
      strContains (msgRule3 len size page) (toString len) :=
  ⟨strContains_of_shape
      (a := "Items length '" ++ toString len ++ "' is not equal to page size '")
      (b := "' for an intermediate page '" ++ toString page ++ "'")
      (by simp [msgRule3, String.append_assoc]),
    strContains_of_shape (a := "Items length '")
      (b := "' is not equal to page size '" ++ toString size ++
        "' for an intermediate page '" ++ toString page ++ "'")
      (by simp [msgRule3, String.append_assoc])⟩

theorem msgRule4_contains (e f : Nat) :
    strContains (msgRule4 e f) (toString e) ∧ strContains (msgRule4 e f) (toString f) :=
  ⟨strContains_of_shape (a := "Total elements error: expected '")
      (b := "', found '" ++ toString f ++ "'")
      (by simp [msgRule4, String.append_assoc]),
    strContains_of_shape (a := "Total elements error: expected '" ++ toString e ++ "', found '")
      (b := "'")
      (by simp [msgRule4, String.append_assoc])⟩

theorem msgRule5_contains (e f : Option Nat) :
    strContains (msgRule5 e f) (optDebug e) ∧ strContains (msgRule5 e f) (optDebug f) :=
  ⟨strContains_of_shape (a := "Previous page index error: expected '")
      (b := "', found '" ++ optDebug f ++ "'")
      (by simp [msgRule5, String.append_assoc]),
    strContains_of_shape
      (a := "Previous page index error: expected '" ++ optDebug e ++ "', found '")
      (b := "'")
      (by simp [msgRule5, String.append_assoc])⟩

theorem msgRule6_contains (e f : Option Nat) :
    strContains (msgRule6 e f) (optDebug e) ∧ strContains (msgRule6 e f) (optDebug f) :=
  ⟨strContains_of_shape (a := "Next page index error: expected '")
      (b := "', found '" ++ optDebug f ++ "'")
      (by simp [msgRule6, String.append_assoc]),
    strContains_of_shape
      (a := "Next page index error: expected '" ++ optDebug e ++ "', found '")
      (b := "'")
      (by simp [msgRule6, String.append_assoc])⟩

/-- Every page `bind_records` constructs (for a positive size) satisfies the
six invariants. -/
theorem mkSheet_invariants {E : Type} (records : List E) (size i : Nat)
    (hs : 0 < size) (hi : i < max (divCeil records.length size) 1) :
    pageInvariants (mkSheet records size i) := by
  have hs0 : size ≠ 0 := hs.ne'
  unfold pageInvariants rule1 rule2 rule3 rule4 rule5 rule6 mkSheet
  dsimp only
  have hlen : ((records.drop (size * i)).take size).length =
      min size (records.length - size * i) := by
    simp [List.length_take, List.length_drop]
  have hpages1 : 1 ≤ max (divCeil records.length size) 1 := le_max_right _ _
  have hA : records.length ≤ size * max (divCeil records.length size) 1 := by
    rcases Nat.eq_zero_or_pos records.length with h0 | hpos
    · omega
    · have hone := one_le_divCeil hs hpos
      have hd : max (divCeil records.length size) 1 = divCeil records.length size := by
        omega
      rw [hd]
      exact le_mul_divCeil hs
  have hB : 0 < records.length →
      size * (max (divCeil records.length size) 1 - 1) < records.length := by
    intro hpos
    have hone := one_le_divCeil hs hpos
    have hd : max (divCeil records.length size) 1 = divCeil records.length size := by
      omega
    rw [hd]
    exact mul_pred_divCeil_lt hs hpos
  have hpage0 : records.length = 0 → max (divCeil records.length size) 1 = 1 := by
    intro h0
    have hz : divCeil records.length size = 0 := by
      rw [h0]
      exact divCeil_zero_left hs
    omega
  refine ⟨?_, ?_, ?_, ?_, ?_, ?_⟩
  · rw [if_neg hs0]
  · omega
  · intro hlt
    rw [hlen]
    have hpos : 0 < records.length := by
      by_contra hc
      have h0 : records.length = 0 := by omega
      have := hpage0 h0
      omega
    have hstep : size * (i + 1) ≤ size * (max (divCeil records.length size) 1 - 1) :=
      Nat.mul_le_mul_left size (by omega)
    have hmul : size * (i + 1) = size * i + size := Nat.mul_succ size i
    have hBB := hB hpos
    omega
  · intro heq
    rw [hlen, heq]
    have hcomm : (max (divCeil records.length size) 1 - 1) * size =
        size * (max (divCeil records.length size) 1 - 1) := Nat.mul_comm _ _
    rcases Nat.eq_zero_or_pos records.length with h0 | hpos
    · rw [hpage0 h0]
      omega
    · have hBB := hB hpos
      have hp1 : max (divCeil records.length size) 1 - 1 + 1 =
          max (divCeil records.length size) 1 := by omega
      have hsucc : size * max (divCeil records.length size) 1 =
          size * (max (divCeil records.length size) 1 - 1) + size := by
        conv_lhs => rw [← hp1]
        rw [Nat.mul_succ]
      omega
  · rfl
  · rcases Nat.lt_or_ge i (max (divCeil records.length size) 1 - 1) with hlt | hge
    · rw [if_neg (by omega), if_pos hlt]
    · have heq : i = max (divCeil records.length size) 1 - 1 := by omega
      rw [if_pos heq, if_neg (by omega)]

/-- If every element maps to a success, collecting the mapped results
succeeds with the mapped values. -/
theorem collectResults_map_ok {γ α : Type} (l : List γ) (f : γ → PaginationResult α)
    (g : γ → α) (h : ∀ x ∈ l, f x = .ok (g x)) :
    collectResults (l.map f) = .ok (l.map g) := by
  induction l with
  | nil => rfl
  | cons x xs ih =>
    have hx := h x (List.mem_cons_self x xs)
    have hxs := ih (fun y hy => h y (List.mem_cons_of_mem x hy))
    simp only [List.map_cons, collectResults, hx, hxs]

/-- `bind_records` with `size == 0` returns the empty book at once. -/
theorem bind_records_zero {E : Type} (records : List E) :
    bind_records records 0 = .ok (Book.new []) := rfl

/-- The `Page::new` call `bind_records` makes at a valid index succeeds and
produces `mkSheet`. -/
theorem page_new_chunk {E : Type} (records : List E) (size i : Nat) (hs : 0 < size)
    (hi : i < max (divCeil records.length size) 1) :
    Page.new ((records.drop (size * i)).take size) i size records.length =
      .ok (mkSheet records size i) := by
  have hcand : newCandidate ((records.drop (size * i)).take size) i size records.length
      = mkSheet records size i := by
    unfold newCandidate mkSheet
    dsimp only
    rw [if_neg hs.ne']
  rw [page_new_ok_iff]
  refine ⟨?_, hcand.symm⟩
  rw [hcand]
  exact verify_fields_of_invariants _ (mkSheet_invariants records size i hs hi)

/-- For a positive size, `bind_records` always succeeds and returns exactly
the sheets `mkSheet 0 .. pages-1`. -/
theorem bind_records_pos {E : Type} (records : List E) (size : Nat) (hs : 0 < size) :
    bind_records records size =
      .ok (Book.new ((List.range (max (divCeil records.length size) 1)).map
        (mkSheet records size))) := by
  unfold bind_records
  dsimp only
  rw [if_neg hs.ne']
  rw [collectResults_map_ok _ _ (mkSheet records size)
    (fun i hi => page_new_chunk records size i hs (List.mem_range.mp hi))]

/-- `csub` succeeds on every guarded subtraction. -/
theorem csub_of_le {a b : Nat} (h : b ≤ a) : csub a b = some (a - b) :=
  if_pos h

/-- The checked-subtraction variant of `verify_fields` never underflows:
it always computes, and computes the same result. -/
theorem checkedVerifyFields_eq {E : Type} (p : Page E) :
    checkedVerifyFields p = some p.verify_fields := by
  unfold checkedVerifyFields Page.verify_fields
  dsimp only
  by_cases h1 : (if p.size = 0 then 1 else max (divCeil p.total p.size) 1) ≠ p.pages
  · simp only [if_pos h1]
    rfl
  · simp only [if_neg h1]
    push_neg at h1
    have hpg : 1 ≤ p.pages := by
      rw [← h1]
      split
      · omega
      · exact le_max_right _ _
    simp only [csub_of_le hpg, Option.pure_def, Option.bind_eq_bind, Option.some_bind]
    by_cases h2 : p.page > p.pages - 1
    · simp only [if_pos h2]
    simp only [if_neg h2]
    by_cases h3 : p.page < p.pages - 1 ∧ p.items.length ≠ p.size
    · simp only [if_pos h3]
    simp only [if_neg h3]
    by_cases h4 : p.page = p.pages - 1 ∧ p.total ≠ (p.pages - 1) * p.size + p.items.length
    · simp only [if_pos h4]
    simp only [if_neg h4]
    by_cases hp0 : p.page = 0
    · simp only [if_pos hp0, Option.pure_def, Option.bind_eq_bind, Option.some_bind]
      by_cases h5 : (if p.page = 0 then (none : Option Nat) else some (p.page - 1)) ≠ p.previous_page
      · simp only [if_pos hp0] at h5
        simp only [if_pos h5]
      · simp only [if_pos hp0] at h5
        simp only [if_neg h5]
        by_cases h6 : (if p.page = p.pages - 1 then (none : Option Nat) else some (p.page + 1)) ≠ p.next_page
        · simp only [if_pos h6]
        · simp only [if_neg h6]
    · simp only [if_neg hp0, csub_of_le (Nat.one_le_iff_ne_zero.mpr hp0), Option.pure_def, Option.bind_eq_bind, Option.some_bind]
      by_cases h5 : (if p.page = 0 then (none : Option Nat) else some (p.page - 1)) ≠ p.previous_page
      · simp only [if_neg hp0] at h5
        simp only [if_pos h5]
      · simp only [if_neg hp0] at h5
        simp only [if_neg h5]
        by_cases h6 : (if p.page = p.pages - 1 then (none : Option Nat) else some (p.page + 1)) ≠ p.next_page
        · simp only [if_pos h6]
        · simp only [if_neg h6]

/-- The checked-subtraction variant of `Page::new` never underflows:
it always computes, and computes the same result. -/
theorem checkedNew_eq {E : Type} (items : List E) (page size total : Nat) :
    checkedNew items page size total = some (Page.new items page size total) := by
  unfold checkedNew Page.new
  dsimp only
  have hpg : 1 ≤ (if size = 0 then 1 else max (divCeil total size) 1) := by
    split
    · omega
    · exact le_max_right _ _
  by_cases hp0 : page = 0
  · simp only [if_pos hp0, Option.pure_def, Option.bind_eq_bind, Option.some_bind,
      csub_of_le hpg, checkedVerifyFields_eq]
    have hc : (⟨items, page, size, total,
        if size = 0 then 1 else max (divCeil total size) 1, none,
        if page = (if size = 0 then 1 else max (divCeil total size) 1) - 1 then none
        else some (page + 1)⟩ : Page E) = newCandidate items page size total := by
      unfold newCandidate
      dsimp only
      rw [if_pos hp0]
    rw [hc]
    cases hv : (newCandidate items page size total).verify_fields <;> rfl
  · simp only [if_neg hp0, Option.pure_def, Option.bind_eq_bind, Option.some_bind,
      csub_of_le (Nat.one_le_iff_ne_zero.mpr hp0), csub_of_le hpg, checkedVerifyFields_eq]
    have hc : (⟨items, page, size, total,
        if size = 0 then 1 else max (divCeil total size) 1, some (page - 1),
        if page = (if size = 0 then 1 else max (divCeil total size) 1) - 1 then none
        else some (page + 1)⟩ : Page E) = newCandidate items page size total := by
      unfold newCandidate
      dsimp only
      rw [if_neg hp0]
    rw [hc]
    cases hv : (newCandidate items page size total).verify_fields <;> rfl

/-! ### Claim theorems -/

/-- C1: every `Page` obtained from a successful `Page::new` or from a
successful deserialization satisfies all six data-model invariants
(rules 1-6), equivalently `verify_fields` holds of it; as pages are
immutable values, this covers every reachable `Page`. -/
theorem pageSources_satisfy_invariants :
    (∀ (E : Type) (items : List E) (page size total : Nat) (p : Page E),
      Page.new items page size total = .ok p →
        pageInvariants p ∧ p.verify_fields = .ok ()) ∧
    (∀ (E : Type) (m : PageModel E) (p : Page E),
      Page.deserialize m = .ok p →
        pageInvariants p ∧ p.verify_fields = .ok ()) := by
  constructor
  · intro E items page size total p h
    obtain ⟨hv, rfl⟩ := (page_new_ok_iff items page size total p).mp h
    exact ⟨invariants_of_verify_fields _ hv, hv⟩
  · intro E m p h
    obtain ⟨hv, rfl⟩ := (deserialize_ok_iff m p).mp h
    exact ⟨invariants_of_verify_fields _ hv, hv⟩

/-- Witness for C1 at a concrete construction. -/
theorem pageSources_satisfy_invariants_witness :
    Page.new [1, 2] 0 2 5 = .ok (⟨[1, 2], 0, 2, 5, 3, none, some 1⟩ : Page Nat) ∧
    (pageInvariants (⟨[1, 2], 0, 2, 5, 3, none, some 1⟩ : Page Nat) ∧
      (⟨[1, 2], 0, 2, 5, 3, none, some 1⟩ : Page Nat).verify_fields = .ok ()) :=
  ⟨rfl,
    pageSources_satisfy_invariants.1 Nat [1, 2] 0 2 5
      (⟨[1, 2], 0, 2, 5, 3, none, some 1⟩ : Page Nat) rfl⟩

/-- C2: with `size == 0` the computed `pages` is 1, and `Page::new`
succeeds exactly when `page == 0` and `items.length == total` (with both
neighbour links absent); in every other case it returns a validation
error. -/
theorem pageNew_size_zero :
    ∀ (E : Type) (items : List E) (page total : Nat),
      ((∃ p, Page.new items page 0 total = .ok p) ↔
        page = 0 ∧ items.length = total) ∧
      (∀ p, Page.new items page 0 total = .ok p →
        p.pages = 1 ∧ p.previous_page = none ∧ p.next_page = none) ∧
      (¬(page = 0 ∧ items.length = total) →
        ∃ e, Page.new items page 0 total = .error e) := by
  intro E items page total
  have hinv : pageInvariants (newCandidate items page 0 total) ↔
      (page = 0 ∧ items.length = total) := by
    constructor
    · rintro ⟨-, r2, -, r4, -, -⟩
      have r2' : page ≤ 1 - 1 := r2
      have r4' : page = 1 - 1 → total = (1 - 1) * 0 + items.length := r4
      have hp : page = 0 := by omega
      have ht := r4' (by omega)
      exact ⟨hp, by omega⟩
    · rintro ⟨hp, hlen⟩
      subst hp
      refine ⟨rfl, Nat.le.refl, ?_, ?_, rfl, rfl⟩
      · intro hc
        have hc' : (0 : Nat) < 1 - 1 := hc
        exact absurd hc' (by decide)
      · intro _
        show total = (1 - 1) * 0 + items.length
        omega
  refine ⟨?_, ?_, ?_⟩
  · constructor
    · rintro ⟨p, hp⟩
      exact hinv.mp (invariants_of_verify_fields _
        ((page_new_ok_iff items page 0 total p).mp hp).1)
    · intro hc
      exact ⟨_, (page_new_ok_iff items page 0 total _).mpr
        ⟨verify_fields_of_invariants _ (hinv.mpr hc), rfl⟩⟩
  · intro p hp
    obtain ⟨hv, rfl⟩ := (page_new_ok_iff items page 0 total p).mp hp
    obtain ⟨hp0, -⟩ := hinv.mp (invariants_of_verify_fields _ hv)
    subst hp0
    exact ⟨rfl, rfl, rfl⟩
  · intro hc
    rcases hres : Page.new items page 0 total with e | p
    · exact ⟨e, rfl⟩
    · exact absurd (hinv.mp (invariants_of_verify_fields _
        ((page_new_ok_iff items page 0 total p).mp hres).1)) hc

/-- Witness for C2: with size 0, `Page::new` succeeds on a full degenerate
page and fails when the page index is nonzero. -/
theorem pageNew_size_zero_witness :
    (∃ p, Page.new [7, 8] 0 0 2 = .ok p) ∧
    (∃ e, Page.new ([7, 8] : List Nat) 1 0 2 = .error e) :=
  ⟨(pageNew_size_zero Nat [7, 8] 0 2).1.mpr (by decide),
    (pageNew_size_zero Nat [7, 8] 1 2).2.2 (by decide)⟩

/-- C3 counterexample: on the empty collection with size 2 (> 0),
`bind_records` returns a book with one (empty) sheet, not zero sheets. -/
theorem bind_records_empty_counterexample :
    bind_records ([] : List Nat) 2 =
      .ok (Book.new [⟨[], 0, 2, 0, 1, none, none⟩]) ∧
    (Book.new [(⟨[], 0, 2, 0, 1, none, none⟩ : Page Nat)]).sheets.length = 1 :=
  ⟨rfl, rfl⟩

/-- C3 amended: `bind_records` always succeeds, and the resulting book has
zero sheets exactly when `size == 0` (an empty collection with a positive
size yields one empty sheet); in particular `bind_records([1..10], 0)` is
an empty book. -/
theorem bind_records_zero_sheets_iff :
    (∀ (E : Type) (records : List E) (size : Nat),
      ∃ b, bind_records records size = .ok b ∧ (b.sheets.length = 0 ↔ size = 0)) ∧
    bind_records [1, 2, 3, 4, 5, 6, 7, 8, 9, 10] 0 =
      .ok (Book.new ([] : List (Page Nat))) := by
  constructor
  · intro E records size
    rcases Nat.eq_zero_or_pos size with h0 | hs
    · subst h0
      exact ⟨_, bind_records_zero records, by simp [Book.new]⟩
    · refine ⟨_, bind_records_pos records size hs, ?_⟩
      have hlen : ((List.range (max (divCeil records.length size) 1)).map
          (mkSheet records size)).length = max (divCeil records.length size) 1 := by
        simp
      constructor
      · intro hz
        rw [show (Book.new ((List.range (max (divCeil records.length size) 1)).map
          (mkSheet records size))).sheets = (List.range (max (divCeil records.length size) 1)).map
          (mkSheet records size) from rfl] at hz
        omega
      · intro hz
        exact absurd hz (by omega)
  · rfl

/-- C4: `paginate_records` counts the whole collection as `total`, selects
the window `[page*size, page*size + size)` clamped to the available items,
in order, and delegates to `Page::new`; concretely on `[1..10]`, page 1,
size 3. -/
theorem paginate_records_spec :
    (∀ (E : Type) (records : List E) (page size : Nat),
      paginate_records records page size =
        Page.new ((records.drop (page * size)).take size) page size records.length) ∧
    paginate_records [1, 2, 3, 4, 5, 6, 7, 8, 9, 10] 1 3 =
      .ok (⟨[4, 5, 6], 1, 3, 10, 4, some 0, some 2⟩ : Page Nat) := by
  constructor
  · intro E records page size
    unfold paginate_records
    dsimp only
    rw [Nat.mul_comm page size]
  · rfl

/-- C5: for non-empty records and a positive size, `bind_records` succeeds
with exactly `ceil(total/size)` sheets; sheet `i` has page `i`, the given
size, the full total, and the `i`-th consecutive chunk of the records;
concretely on `[1..10]` with size 3 it yields the four expected sheets
whose item counts sum to 10. -/
theorem bind_records_chunks :
    (∀ (E : Type) (records : List E) (size : Nat), records ≠ [] → 0 < size →
      ∃ b, bind_records records size = .ok b ∧
        b.sheets.length = divCeil records.length size ∧
        ∀ i (h : i < b.sheets.length),
          (b.sheets.get ⟨i, h⟩).page = i ∧
          (b.sheets.get ⟨i, h⟩).size = size ∧
          (b.sheets.get ⟨i, h⟩).total = records.length ∧
          (b.sheets.get ⟨i, h⟩).items = (records.drop (size * i)).take size) ∧
    (∃ b, bind_records [1, 2, 3, 4, 5, 6, 7, 8, 9, 10] 3 = .ok b ∧
      b = Book.new [⟨[1, 2, 3], 0, 3, 10, 4, none, some 1⟩,
        ⟨[4, 5, 6], 1, 3, 10, 4, some 0, some 2⟩,
        ⟨[7, 8, 9], 2, 3, 10, 4, some 1, some 3⟩,
        ⟨[10], 3, 3, 10, 4, some 2, none⟩] ∧
      (b.sheets.map (fun s => s.items.length)).sum = 10) := by
  constructor
  · intro E records size hne hs
    have htpos : 0 < records.length := List.length_pos.mpr hne
    have hmax : max (divCeil records.length size) 1 = divCeil records.length size := by
      have := one_le_divCeil hs htpos
      omega
    refine ⟨_, bind_records_pos records size hs, ?_, ?_⟩
    · show ((List.range (max (divCeil records.length size) 1)).map
        (mkSheet records size)).length = divCeil records.length size
      rw [List.length_map, List.length_range, hmax]
    · intro i h
      have hi : i < max (divCeil records.length size) 1 := by
        have hlen : ((List.range (max (divCeil records.length size) 1)).map
            (mkSheet records size)).length = max (divCeil records.length size) 1 := by
          rw [List.length_map, List.length_range]
        rw [show (Book.new ((List.range (max (divCeil records.length size) 1)).map
          (mkSheet records size))).sheets = (List.range (max (divCeil records.length size) 1)).map
          (mkSheet records size) from rfl, hlen] at h
        exact h
      have hget : (Book.new ((List.range (max (divCeil records.length size) 1)).map
          (mkSheet records size))).sheets.get ⟨i, h⟩ = mkSheet records size i := by
        show ((List.range (max (divCeil records.length size) 1)).map
          (mkSheet records size)).get ⟨i, h⟩ = mkSheet records size i
        rw [List.get_eq_getElem, List.getElem_map, List.getElem_range]
      rw [hget]
      exact ⟨rfl, rfl, rfl, rfl⟩
  · exact ⟨_, rfl, rfl, rfl⟩

/-- Witness for C5 on the one-element collection with size 1. -/
theorem bind_records_chunks_witness :
    ([(5 : Nat)] ≠ [] ∧ 0 < 1) ∧
    ∃ b, bind_records [(5 : Nat)] 1 = .ok b ∧
      b.sheets.length = divCeil ([(5 : Nat)] : List Nat).length 1 ∧
      ∀ i (h : i < b.sheets.length),
        (b.sheets.get ⟨i, h⟩).page = i ∧
        (b.sheets.get ⟨i, h⟩).size = 1 ∧
        (b.sheets.get ⟨i, h⟩).total = ([(5 : Nat)] : List Nat).length ∧
        (b.sheets.get ⟨i, h⟩).items = (([(5 : Nat)] : List Nat).drop (1 * i)).take 1 :=
  ⟨⟨by decide, by decide⟩,
    bind_records_chunks.1 Nat [5] 1 (by decide) (by decide)⟩

/-- C6: when the candidate fields violate at least one invariant, the shared
verification routine (and hence `Page::new`, which returns exactly its
candidate's verification error) reports the first failing rule in the fixed
order 1→2→3→4→5→6, and the message carries both the rule's expected value
and its found value. -/
theorem verify_first_failing_rule :
    (∀ (E : Type) (p : Page E), ¬ pageInvariants p →
      ∃ i, 1 ≤ i ∧ i ≤ 6 ∧ ¬ ruleN i p ∧ (∀ j, 1 ≤ j → j < i → ruleN j p) ∧
        p.verify_fields = .error (invalidValue (ruleMsg i p)) ∧
        strContains (ruleMsg i p) (ruleExpected i p) ∧
        strContains (ruleMsg i p) (ruleFound i p)) ∧
    (∀ (E : Type) (items : List E) (page size total : Nat) (e : PaginationError),
      Page.new items page size total = .error e ↔
        (newCandidate items page size total).verify_fields = .error e) := by
  constructor
  · intro E p h
    by_cases c1 : rule1 p
    · by_cases c2 : rule2 p
      · by_cases c3 : rule3 p
        · by_cases c4 : rule4 p
          · by_cases c5 : rule5 p
            · have c6 : ¬ rule6 p := fun c6 => h ⟨c1, c2, c3, c4, c5, c6⟩
              refine ⟨6, by omega, by omega, c6, ?_,
                verify_fields_err6 p c1 c2 c3 c4 c5 c6,
                (msgRule6_contains (expectedNextOf p) p.next_page).1,
                (msgRule6_contains (expectedNextOf p) p.next_page).2⟩
              intro j hj hjlt
              interval_cases j
              · exact c1
              · exact c2
              · exact c3
              · exact c4
              · exact c5
            · refine ⟨5, by omega, by omega, c5, ?_,
                verify_fields_err5 p c1 c2 c3 c4 c5,
                (msgRule5_contains (expectedPrevOf p) p.previous_page).1,
                (msgRule5_contains (expectedPrevOf p) p.previous_page).2⟩
              intro j hj hjlt
              interval_cases j
              · exact c1
              · exact c2
              · exact c3
              · exact c4
          · refine ⟨4, by omega, by omega, c4, ?_,
              verify_fields_err4 p c1 c2 c3 c4,
              (msgRule4_contains ((p.pages - 1) * p.size + p.items.length) p.total).1,
              (msgRule4_contains ((p.pages - 1) * p.size + p.items.length) p.total).2⟩
            intro j hj hjlt
            interval_cases j
            · exact c1
            · exact c2
            · exact c3
        · refine ⟨3, by omega, by omega, c3, ?_,
            verify_fields_err3 p c1 c2 c3,
            (msgRule3_contains p.items.length p.size p.page).1,
            (msgRule3_contains p.items.length p.size p.page).2⟩
          intro j hj hjlt
          interval_cases j
          · exact c1
          · exact c2
      · refine ⟨2, by omega, by omega, c2, ?_,
          verify_fields_err2 p c1 c2,
          (msgRule2_contains p.page p.pages).1,
          (msgRule2_contains p.page p.pages).2⟩
        intro j hj hjlt
        interval_cases j
        · exact c1
    · refine ⟨1, by omega, by omega, c1, ?_,
        verify_fields_err1 p c1,
        (msgRule1_contains (expectedPagesOf p) p.pages).1,
        (msgRule1_contains (expectedPagesOf p) p.pages).2⟩
      intro j hj hjlt
      exact absurd hjlt (by omega)
  · intro E items page size total e
    exact page_new_err_iff items page size total e

/-- Witness for C6 at a concrete invalid page (rule 4 is the first to
fail: size 0 forces one page but the declared total is 5 with no items). -/
theorem verify_first_failing_rule_witness :
    ¬ pageInvariants (⟨[], 0, 0, 5, 1, none, none⟩ : Page Nat) ∧
    ∃ i, 1 ≤ i ∧ i ≤ 6 ∧ ¬ ruleN i (⟨[], 0, 0, 5, 1, none, none⟩ : Page Nat) ∧
      (∀ j, 1 ≤ j → j < i → ruleN j (⟨[], 0, 0, 5, 1, none, none⟩ : Page Nat)) ∧
      (⟨[], 0, 0, 5, 1, none, none⟩ : Page Nat).verify_fields =
        .error (invalidValue (ruleMsg i (⟨[], 0, 0, 5, 1, none, none⟩ : Page Nat))) ∧
      strContains (ruleMsg i (⟨[], 0, 0, 5, 1, none, none⟩ : Page Nat))
        (ruleExpected i (⟨[], 0, 0, 5, 1, none, none⟩ : Page Nat)) ∧
      strContains (ruleMsg i (⟨[], 0, 0, 5, 1, none, none⟩ : Page Nat))
        (ruleFound i (⟨[], 0, 0, 5, 1, none, none⟩ : Page Nat)) :=
  ⟨by decide,
    verify_first_failing_rule.1 Nat (⟨[], 0, 0, 5, 1, none, none⟩ : Page Nat) (by decide)⟩

/-- C7: requesting a page index beyond the valid range makes
`paginate_records` fail with the rule-2 invariant error (the embedding is
total, so no panic, and no truncated success is possible); `bind_records`,
which generates only the valid indices itself, never fails at all.
Concretely, 5 records with page 10 and size 2 produce the message
"Page index '10' exceeds total pages '3'". -/
theorem paginate_out_of_range :
    (∀ (E : Type) (records : List E) (page size : Nat),
      page > (if size = 0 then 1 else max (divCeil records.length size) 1) - 1 →
      paginate_records records page size =
        .error (invalidValue (msgRule2 page
          (if size = 0 then 1 else max (divCeil records.length size) 1)))) ∧
    (∀ (E : Type) (records : List E) (size : Nat),
      ∃ b, bind_records records size = .ok b) ∧
    paginate_records [1, 2, 3, 4, 5] 10 2 = .error (invalidValue (msgRule2 10 3)) ∧
    msgRule2 10 3 = "Page index '10' exceeds total pages '3'" := by
  refine ⟨?_, ?_, ?_, ?_⟩
  · intro E records page size hpage
    unfold paginate_records
    dsimp only
    rw [page_new_err_iff]
    have h2 : ¬ rule2 (newCandidate ((records.drop (size * page)).take size)
        page size records.length) := by
      intro hr
      have hr' : page ≤ (if size = 0 then 1 else max (divCeil records.length size) 1) - 1 := hr
      omega
    exact verify_fields_err2 _ rfl h2
  · intro E records size
    rcases Nat.eq_zero_or_pos size with h0 | hs
    · subst h0
      exact ⟨_, bind_records_zero records⟩
    · exact ⟨_, bind_records_pos records size hs⟩
  · rfl
  · rfl

/-- Witness for C7: one record, size 1, requested page 5. -/
theorem paginate_out_of_range_witness :
    (5 > (if 1 = 0 then 1 else max (divCeil ([(9 : Nat)] : List Nat).length 1) 1) - 1) ∧
    paginate_records [(9 : Nat)] 5 1 =
      .error (invalidValue (msgRule2 5
        (if 1 = 0 then 1 else max (divCeil ([(9 : Nat)] : List Nat).length 1) 1))) :=
  ⟨by decide, paginate_out_of_range.1 Nat [9] 5 1 (by decide)⟩

/-- C8: deserialization runs the identical six-rule check on the supplied
`pages`/`previous_page`/`next_page` values as given (never recomputed):
a success returns exactly the supplied fields and implies the invariants,
any invariant violation is rejected, and altering only `next_page` of a
valid page's wire form to anything but the rule-6 expectation fails with
the rule-6 error naming expected and found. -/
theorem deserialize_verifies_as_given :
    (∀ (E : Type) (m : PageModel E) (p : Page E),
      Page.deserialize m = .ok p → p = m.toPage) ∧
    (∀ (E : Type) (m : PageModel E),
      Page.deserialize m = .ok m.toPage ↔ pageInvariants m.toPage) ∧
    (∀ (E : Type) (m : PageModel E),
      ¬ pageInvariants m.toPage → ∃ e, Page.deserialize m = .error e) ∧
    (∀ (E : Type) (p : Page E) (np : Option Nat),
      p.verify_fields = .ok () → np ≠ expectedNextOf p →
      Page.deserialize (withNextPage (Page.serialize p) np) =
        .error (invalidValue (msgRule6 (expectedNextOf p) np))) := by
  refine ⟨?_, ?_, ?_, ?_⟩
  · intro E m p h
    exact ((deserialize_ok_iff m p).mp h).2
  · intro E m
    constructor
    · intro h
      exact invariants_of_verify_fields _ ((deserialize_ok_iff m m.toPage).mp h).1
    · intro h
      exact (deserialize_ok_iff m m.toPage).mpr ⟨verify_fields_of_invariants _ h, rfl⟩
  · intro E m h
    rcases hres : Page.deserialize m with e | p
    · exact ⟨e, rfl⟩
    · obtain ⟨hv, rfl⟩ := (deserialize_ok_iff m p).mp hres
      exact absurd (invariants_of_verify_fields _ hv) h
  · intro E p np hval hnp
    obtain ⟨r1, r2, r3, r4, r5, r6⟩ := invariants_of_verify_fields p hval
    have r6' : ¬ rule6 ((withNextPage (Page.serialize p) np).toPage) := by
      intro h6q
      have h6q' : np = (if p.page < p.pages - 1 then some (p.page + 1) else none) := h6q
      exact hnp (h6q'.trans (next_ite_eq p r2).symm)
    rw [deserialize_err_iff]
    exact verify_fields_err6 ((withNextPage (Page.serialize p) np).toPage)
      r1 r2 r3 r4 r5 r6'

/-- Witness for C8: tampering `next_page` of a valid page's wire form from
`some 1` to `some 2` is rejected with the rule-6 error. -/
theorem deserialize_verifies_as_given_witness :
    ((⟨[1, 2], 0, 2, 5, 3, none, some 1⟩ : Page Nat).verify_fields = .ok () ∧
      some 2 ≠ expectedNextOf (⟨[1, 2], 0, 2, 5, 3, none, some 1⟩ : Page Nat)) ∧
    Page.deserialize (withNextPage
        (Page.serialize (⟨[1, 2], 0, 2, 5, 3, none, some 1⟩ : Page Nat)) (some 2)) =
      .error (invalidValue (msgRule6
        (expectedNextOf (⟨[1, 2], 0, 2, 5, 3, none, some 1⟩ : Page Nat)) (some 2))) :=
  ⟨⟨rfl, by decide⟩,
    deserialize_verifies_as_given.2.2.2 Nat
      (⟨[1, 2], 0, 2, 5, 3, none, some 1⟩ : Page Nat) (some 2) rfl (by decide)⟩

/-- C9: serializing a valid page to its wire form and deserializing the
result succeeds and returns a page equal to the original (hence equal in
every field). -/
theorem serialize_roundtrip :
    ∀ (E : Type) (p : Page E), p.verify_fields = .ok () →
      Page.deserialize (Page.serialize p) = .ok p := by
  intro E p h
  have ht : (Page.serialize p).toPage = p := by
    cases p
    rfl
  rw [deserialize_ok_iff]
  refine ⟨?_, ht.symm⟩
  rw [ht]
  exact h

/-- Witness for C9 at a concrete valid page. -/
theorem serialize_roundtrip_witness :
    (⟨[1, 2], 0, 2, 5, 3, none, some 1⟩ : Page Nat).verify_fields = .ok () ∧
    Page.deserialize (Page.serialize (⟨[1, 2], 0, 2, 5, 3, none, some 1⟩ : Page Nat)) =
      .ok (⟨[1, 2], 0, 2, 5, 3, none, some 1⟩ : Page Nat) :=
  ⟨rfl, serialize_roundtrip Nat (⟨[1, 2], 0, 2, 5, 3, none, some 1⟩ : Page Nat) rfl⟩

/-- C10: with every `usize` subtraction replaced by checked subtraction,
`verify_fields` and `Page::new` still always compute (no underflow branch
is reachable) and compute the same results: `pages - 1` only runs after
rule 1 has pinned `pages` to an expected value of at least 1, and
`page - 1` only runs when `page > 0`. -/
theorem checked_subtractions_total :
    (∀ (E : Type) (p : Page E), checkedVerifyFields p = some p.verify_fields) ∧
    (∀ (E : Type) (items : List E) (page size total : Nat),
      checkedNew items page size total = some (Page.new items page size total)) :=
  ⟨fun _ p => checkedVerifyFields_eq p,
    fun _ items page size total => checkedNew_eq items page size total⟩

end PageHunter
